import Mathlib

/-!
Verification development for the ChartPredictor analytical core.

Shallow embedding of `src/core/predictor.py` (class `ChartPredictor`) and
`src/core/chart_extractor.py` (class `ChartExtractor`).  Python floats are
modeled as rationals (ℚ); Python `None` becomes `Option`; Python dicts with
string keys become association lists looked up with `List.lookup`.  Python
truthiness of a float (`if x:`) is false exactly for `None` and `0.0`, which
`optTruthy` captures.  IEEE special values are modeled where they actually
arise and are noted at each site.  The `TA-Lib`-free manual code paths are
modeled (module-level `TALIB_AVAILABLE = False` branch), which are also the
formulas the specification documents.
-/

/-- Python truthiness of an optional float: `None` and `0.0` are falsy.
Returns the value when truthy so callers can use it. -/
def optTruthy (v : Option ℚ) : Option ℚ :=
  match v with
  | some x => if x = 0 then none else some x
  | none => none

/-- Round a rational to the nearest integer, ties to even, as Python
`round` does on exact decimal values. -/
def roundHalfEven (q : ℚ) : ℤ :=
  let f : ℤ := ⌊q⌋
  let r : ℚ := q - f
  if r < 1/2 then f
  else if 1/2 < r then f + 1
  else if f % 2 = 0 then f else f + 1

/-- Python `round(q, nd)` on an exact decimal-valued rational. -/
def pyround (nd : ℕ) (q : ℚ) : ℚ :=
  (roundHalfEven (q * 10 ^ nd) : ℚ) / 10 ^ nd

/-- Left-pad a decimal string with zeros to width `k`. -/
def padZeros (k : ℕ) (s : String) : String :=
  String.join (List.replicate (k - s.length) "0") ++ s

/-- Fixed-point decimal rendering with `nd` digits, used for the f-string
formats (`:.2f`, `:.1f`) appearing in reasoning and description texts. -/
def fmtFixed (nd : ℕ) (q : ℚ) : String :=
  let n : ℤ := roundHalfEven (q * 10 ^ nd)
  let sign := if n < 0 then "-" else ""
  let m : ℕ := n.natAbs
  if nd = 0 then sign ++ toString m
  else sign ++ toString (m / 10 ^ nd) ++ "." ++ padZeros nd (toString (m % 10 ^ nd))

/-- Element access `xs[i]` on a price array (all uses in the embedded code
are guarded in range by the surrounding length checks). -/
def getQ (xs : List ℚ) (i : ℕ) : ℚ := xs.getD i 0

/-- The trailing window `xs[-k:]`. -/
def lastN (k : ℕ) (xs : List ℚ) : List ℚ := xs.drop (xs.length - k)

/-- The initial slice `xs[:-k]`. -/
def dropLastK (k : ℕ) (xs : List ℚ) : List ℚ := xs.take (xs.length - k)

/-- `np.mean` / division by the length (callers guard non-emptiness). -/
def listMean (xs : List ℚ) : ℚ := xs.sum / xs.length

/-- `np.max` over a non-empty slice. -/
def listMax (xs : List ℚ) : ℚ :=
  match xs with
  | [] => 0
  | y :: ys => ys.foldl max y

/-- `np.min` over a non-empty slice. -/
def listMin (xs : List ℚ) : ℚ :=
  match xs with
  | [] => 0
  | y :: ys => ys.foldl min y

/-- Mean of the last full rolling window of width `k`
(`series.rolling(window=k).mean().iloc[-1]` when `k ≤ len`). -/
def windowMean (k : ℕ) (xs : List ℚ) : ℚ := (lastN k xs).sum / k

/-- One OHLCV sample (`OHLCData` dataclass).  The `datetime` timestamp is
abstracted as an ordinal; pattern records render it with `toString` where
the source renders `str(timestamp.date())`. -/
structure OHLCData where
  timestamp : ℕ
  open_ : ℚ
  high : ℚ
  low : ℚ
  close : ℚ
  volume : ℚ
deriving Repr, DecidableEq, Inhabited

/-- Extracted chart data (`ChartData` dataclass). -/
structure ChartData where
  ohlc_data : List OHLCData
  price_levels : List (String × ℚ)
  timeframe : String
  symbol : String
  extraction_confidence : ℚ
deriving Repr, DecidableEq, Inhabited

/-- `ModelConfig` fields used by the core (`settings.py`). -/
structure ModelConfig where
  confidence_threshold : ℚ
  prediction_horizon : ℕ
deriving Repr, DecidableEq

/-- `TechnicalAnalysisConfig` fields used by the core (`settings.py`). -/
structure TechnicalAnalysisConfig where
  indicators : List (String × Bool)
  rsi_period : ℕ
  macd_periods : ℕ × ℕ × ℕ
  bb_period : ℕ
  bb_std_dev : ℚ
  ma_periods : List ℕ
deriving Repr, DecidableEq

/-- `TradingConfig` fields used by the core (`settings.py`). -/
structure TradingConfig where
  max_risk_per_trade : ℚ
  stop_loss_multiplier : ℚ
  take_profit_multiplier : ℚ
  signal_filters : List (String × Bool)
deriving Repr, DecidableEq

/-- Detected chart pattern (`Pattern` dataclass). -/
structure Pattern where
  name : String
  confidence : ℚ
  start_time : String
  end_time : String
  pattern_type : String
  description : String
deriving Repr, DecidableEq

/-- Price prediction result (`Prediction` dataclass). -/
structure Prediction where
  direction : String
  confidence : ℚ
  target_price : Option ℚ
  time_horizon : String
  reasoning : String
deriving Repr, DecidableEq

/-- Signal strength; the dataclass documents exactly the values
`"Strong"`, `"Medium"`, `"Weak"`. -/
inductive Strength where
  | Strong
  | Medium
  | Weak
deriving Repr, DecidableEq

/-- Numeric rank of a strength in the order Strong > Medium > Weak. -/
def strengthRank : Strength → ℕ
  | Strength.Strong => 2
  | Strength.Medium => 1
  | Strength.Weak => 0

/-- Trading recommendation (`TradingSignal` dataclass). -/
structure TradingSignal where
  action : String
  strength : Strength
  entry_price : Option ℚ
  stop_loss : Option ℚ
  take_profit : Option ℚ
  risk_reward_ratio : ℚ
  reasoning : String
deriving Repr, DecidableEq

/-- `chart_data.price_levels.get('current_price', 150.0)`
(`predict_price_movement`, predictor.py line 557). -/
def current_price_of (chart : ChartData) : ℚ :=
  (List.lookup "current_price" chart.price_levels).getD 150

/-- Componentwise sum of (bullish, bearish) vote pairs. -/
def addVotes (a b : ℕ × ℕ) : ℕ × ℕ := (a.1 + b.1, a.2 + b.2)

/-- RSI votes of `predict_price_movement` (lines 540-545): the value is
read with `.get` and tested with Python truthiness (`if rsi:`), so an
absent key or a value of exactly 0 casts no vote. -/
def rsi_vote (ta : List (String × ℚ)) : ℕ × ℕ :=
  match optTruthy (List.lookup "RSI" ta) with
  | some rsi => if rsi < 30 then (1, 0) else if 70 < rsi then (0, 1) else (0, 0)
  | none => (0, 0)

/-- MACD votes of `predict_price_movement` (lines 548-554): guarded by
`if macd and macd_signal:`, i.e. both values must be present and nonzero
(Python truthiness), then one vote is cast: bullish when
`macd > macd_signal`, else bearish. -/
def macd_vote (ta : List (String × ℚ)) : ℕ × ℕ :=
  match optTruthy (List.lookup "MACD" ta), optTruthy (List.lookup "MACD_Signal" ta) with
  | some macd, some macd_signal =>
      if macd_signal < macd then (1, 0) else (0, 1)
  | _, _ => (0, 0)

/-- Moving-average votes of `predict_price_movement` (lines 558-565),
with the same truthiness guard `if ma_9 and ma_21:`. -/
def ma_vote (current_price : ℚ) (ta : List (String × ℚ)) : ℕ × ℕ :=
  match optTruthy (List.lookup "MA_9" ta), optTruthy (List.lookup "MA_21" ta) with
  | some ma_9, some ma_21 =>
      if ma_21 < ma_9 ∧ ma_9 < current_price then (1, 0)
      else if ma_9 < ma_21 ∧ current_price < ma_9 then (0, 1)
      else (0, 0)
  | _, _ => (0, 0)

/-- The (bullish, bearish) signal counters accumulated by
`predict_price_movement` (lines 536-565). -/
def signal_counts (chart : ChartData) (ta : List (String × ℚ)) : ℕ × ℕ :=
  addVotes (rsi_vote ta) (addVotes (macd_vote ta) (ma_vote (current_price_of chart) ta))

/-- `ChartPredictor.predict_price_movement` (predictor.py lines 529-593).
The returned target price is passed through
`round(target_price, 2) if target_price else None`, hence the truthiness
test on the computed target. -/
def predict_price_movement (mc : ModelConfig) (chart : ChartData)
    (ta : List (String × ℚ)) : Prediction :=
  let current_price := current_price_of chart
  let v := signal_counts chart ta
  let bullish_signals := v.1
  let bearish_signals := v.2
  let time_horizon := toString mc.prediction_horizon ++ "h"
  if bearish_signals < bullish_signals then
    let confidence := min (0.9 : ℚ) (0.5 + ((bullish_signals - bearish_signals : ℕ) : ℚ) * 0.15)
    let target_price := current_price * 1.05
    { direction := "UP", confidence := confidence,
      target_price := if target_price = 0 then none else some (pyround 2 target_price),
      time_horizon := time_horizon,
      reasoning := "Bullish signals: " ++ toString bullish_signals ++
        ", Bearish signals: " ++ toString bearish_signals }
  else if bullish_signals < bearish_signals then
    let confidence := min (0.9 : ℚ) (0.5 + ((bearish_signals - bullish_signals : ℕ) : ℚ) * 0.15)
    let target_price := current_price * 0.95
    { direction := "DOWN", confidence := confidence,
      target_price := if target_price = 0 then none else some (pyround 2 target_price),
      time_horizon := time_horizon,
      reasoning := "Bearish signals: " ++ toString bearish_signals ++
        ", Bullish signals: " ++ toString bullish_signals }
  else
    { direction := "SIDEWAYS", confidence := 0.5,
      target_price := if current_price = 0 then none else some (pyround 2 current_price),
      time_horizon := time_horizon,
      reasoning := "Equal bullish and bearish signals suggest sideways movement" }

/-- `ChartPredictor._apply_trend_filter` (predictor.py lines 677-696).
The guard `if not (ma_9 and ma_21 and ma_50): return signal` uses Python
truthiness of the three looked-up values. -/
def apply_trend_filter (signal : TradingSignal) (ta : List (String × ℚ)) : TradingSignal :=
  match optTruthy (List.lookup "MA_9" ta), optTruthy (List.lookup "MA_21" ta),
      optTruthy (List.lookup "MA_50" ta) with
  | some ma_9, some ma_21, some ma_50 =>
      if signal.action = "BUY" then
        if ¬ (ma_21 < ma_9 ∧ ma_50 < ma_21) then
          { signal with
            strength := Strength.Weak
            reasoning := signal.reasoning ++
              " (Trend filter: Moving averages not aligned for uptrend)" }
        else signal
      else if signal.action = "SELL" then
        if ¬ (ma_9 < ma_21 ∧ ma_21 < ma_50) then
          { signal with
            strength := Strength.Weak
            reasoning := signal.reasoning ++
              " (Trend filter: Moving averages not aligned for downtrend)" }
        else signal
      else signal
  | _, _, _ => signal

/-- `ChartPredictor._apply_volume_filter` (predictor.py lines 698-714),
with the truthiness guard `if not volume_ratio: return signal`. -/
def apply_volume_filter (signal : TradingSignal) (ta : List (String × ℚ)) : TradingSignal :=
  match optTruthy (List.lookup "Volume_Ratio" ta) with
  | some volume_ratio =>
      if signal.action = "BUY" ∨ signal.action = "SELL" then
        if volume_ratio < 1.2 then
          { signal with
            strength :=
              match signal.strength with
              | Strength.Strong => Strength.Medium
              | Strength.Medium => Strength.Weak
              | Strength.Weak => Strength.Weak
            reasoning := signal.reasoning ++ " (Volume filter: Volume ratio " ++
              fmtFixed 1 volume_ratio ++ " below confirmation threshold)" }
        else signal
      else signal
  | none => signal

/-- The unfiltered signal of `ChartPredictor.generate_trading_signals`
(predictor.py lines 599-665, before the optional filters of lines
667-672).  Every `x if y else None` of the source is an `Option` match on
Python truthiness; the risk/reward ratio is 0.0 unless entry, stop and
take prices are all truthy. -/
def generate_base_signal (tc : TradingConfig) (pred : Prediction) : TradingSignal :=
  if pred.confidence < 0.6 then
      { action := "HOLD", strength := Strength.Weak, entry_price := none,
        stop_loss := none, take_profit := none, risk_reward_ratio := 0,
        reasoning := "Low prediction confidence suggests waiting for clearer signals" }
    else if pred.direction = "UP" then
      let entry_price : Option ℚ :=
        match optTruthy pred.target_price with
        | some t => some (t * 0.98)
        | none => none
      let stop_loss : Option ℚ :=
        match optTruthy entry_price with
        | some e => some (e * (1 - tc.max_risk_per_trade * tc.stop_loss_multiplier))
        | none => none
      let take_profit : Option ℚ :=
        match optTruthy entry_price with
        | some e => some (e * (1 + tc.max_risk_per_trade * tc.take_profit_multiplier))
        | none => none
      let risk_reward_ratio : ℚ :=
        match optTruthy entry_price, optTruthy stop_loss, optTruthy take_profit with
        | some e, some s, some t => (t - e) / (e - s)
        | _, _, _ => 0
      { action := "BUY",
        strength := if 0.8 < pred.confidence then Strength.Strong else Strength.Medium,
        entry_price := (optTruthy entry_price).map (pyround 2),
        stop_loss := (optTruthy stop_loss).map (pyround 2),
        take_profit := (optTruthy take_profit).map (pyround 2),
        risk_reward_ratio := pyround 2 risk_reward_ratio,
        reasoning := "Bullish prediction with " ++ fmtFixed 1 (pred.confidence * 100) ++
          "% confidence. " ++ pred.reasoning }
    else if pred.direction = "DOWN" then
      let entry_price : Option ℚ :=
        match optTruthy pred.target_price with
        | some t => some (t * 1.02)
        | none => none
      let stop_loss : Option ℚ :=
        match optTruthy entry_price with
        | some e => some (e * (1 + tc.max_risk_per_trade * tc.stop_loss_multiplier))
        | none => none
      let take_profit : Option ℚ :=
        match optTruthy entry_price with
        | some e => some (e * (1 - tc.max_risk_per_trade * tc.take_profit_multiplier))
        | none => none
      let risk_reward_ratio : ℚ :=
        match optTruthy entry_price, optTruthy stop_loss, optTruthy take_profit with
        | some e, some s, some t => (e - t) / (s - e)
        | _, _, _ => 0
      { action := "SELL",
        strength := if 0.8 < pred.confidence then Strength.Strong else Strength.Medium,
        entry_price := (optTruthy entry_price).map (pyround 2),
        stop_loss := (optTruthy stop_loss).map (pyround 2),
        take_profit := (optTruthy take_profit).map (pyround 2),
        risk_reward_ratio := pyround 2 risk_reward_ratio,
        reasoning := "Bearish prediction with " ++ fmtFixed 1 (pred.confidence * 100) ++
          "% confidence. " ++ pred.reasoning }
    else
      { action := "HOLD", strength := Strength.Medium, entry_price := none,
        stop_loss := none, take_profit := none, risk_reward_ratio := 0,
        reasoning := "Sideways movement predicted. " ++ pred.reasoning }

/-- `ChartPredictor.generate_trading_signals` (predictor.py lines
595-675): the base signal of lines 599-665, then the optional trend and
volume confirmation filters of lines 667-672, in that order. -/
def generate_trading_signals (tc : TradingConfig) (pred : Prediction)
    (ta : List (String × ℚ)) : TradingSignal :=
  let signal := generate_base_signal tc pred
  let signal :=
    if (List.lookup "trend_confirmation" tc.signal_filters).getD false then
      apply_trend_filter signal ta
    else signal
  if (List.lookup "volume_confirmation" tc.signal_filters).getD false then
    apply_volume_filter signal ta
  else signal

/-- Backtest report dictionary (`_calculate_backtest_metrics` /
`_get_empty_backtest_results` key set). -/
structure BacktestResults where
  accuracy : ℚ
  total_predictions : ℕ
  correct_predictions : ℕ
  up_accuracy : ℚ
  down_accuracy : ℚ
  precision : ℚ
  «recall» : ℚ
  profit_loss : ℚ
  total_trades : ℕ
  winning_trades : ℕ
  losing_trades : ℕ
  win_rate : ℚ
  avg_win : ℚ
  avg_loss : ℚ
  max_drawdown : ℚ
  sharpe_ratio : ℚ
  backtest_period : String
deriving Repr, DecidableEq

/-- `ChartPredictor._get_empty_backtest_results` (predictor.py lines 917-937). -/
def get_empty_backtest_results : BacktestResults :=
  { accuracy := 0, total_predictions := 0, correct_predictions := 0,
    up_accuracy := 0, down_accuracy := 0, precision := 0, «recall» := 0,
    profit_loss := 0, total_trades := 0, winning_trades := 0,
    losing_trades := 0, win_rate := 0, avg_win := 0, avg_loss := 0,
    max_drawdown := 0, sharpe_ratio := 0, backtest_period := "No data" }

/-- `ChartPredictor._run_backtest_simulation` (predictor.py lines 745-797).
With fewer than 30 prices the guard returns the empty results.  Otherwise
the very next statement, the loop header
`for i in range(lookback_window, len(prices) - prediction.time_horizon_hours)`,
evaluates `prediction.time_horizon_hours`; the `Prediction` dataclass
(predictor.py lines 26-34) defines no such attribute (the property of that
name lives on `ChartPredictor`, line 939), so Python raises
`AttributeError` before any iteration runs.  The exception escapes this
function; it is modeled as the `Except.error` branch. -/
def run_backtest_simulation (prices : List ℚ) (pred : Prediction) :
    Except String BacktestResults :=
  if prices.length < 30 then Except.ok get_empty_backtest_results
  else Except.error
    ("AttributeError: Prediction object has no attribute time_horizon_hours; " ++
      pred.time_horizon)

/-- `ChartPredictor.backtest_prediction` (predictor.py lines 716-743),
called with a list of OHLC bars (the only call site, main_window.py line
1910, passes `chart_data.ohlc_data`).  Fewer than 10 bars returns the
empty results directly; otherwise the simulation runs inside
`try/except`, and any exception is caught and converted to the empty
results. -/
def backtest_prediction (pred : Prediction) (actual_data : List OHLCData) :
    BacktestResults :=
  if actual_data.length < 10 then get_empty_backtest_results
  else
    let prices := actual_data.map (fun d => d.close)
    match run_backtest_simulation prices pred with
    | Except.ok results => results
    | Except.error _ => get_empty_backtest_results

/-- The OHLC consistency test of `validate_extracted_data`
(chart_extractor.py line 188): the chained comparison
`low <= min(o,c) <= max(o,c) <= high`. -/
def ohlc_consistent (b : OHLCData) : Bool :=
  decide (b.low ≤ min b.open_ b.close ∧ min b.open_ b.close ≤ max b.open_ b.close ∧
    max b.open_ b.close ≤ b.high)

/-- The per-gap relative price changes of `validate_extracted_data`
(chart_extractor.py lines 171-176): `|open_i − close_(i−1)| / close_(i−1)`
for consecutive bars. -/
def price_changes (bars : List OHLCData) : List ℚ :=
  (bars.zip bars.tail).map (fun p => |p.2.open_ - p.1.close| / p.1.close)

/-- Validation result dictionary of `validate_extracted_data`. -/
structure ValidationResults where
  is_valid : Bool
  warnings : List String
  errors : List String
  quality_score : ℚ
deriving Repr, DecidableEq

/-- `ChartExtractor.validate_extracted_data` (chart_extractor.py lines
155-209).  The quality score starts at 1.0, loses 0.05 per extreme
(>20%) consecutive price change and 0.1 per inconsistent candle, and is
clamped to [0, 1]. -/
def validate_extracted_data (chart : ChartData) : ValidationResults :=
  if chart.ohlc_data.isEmpty then
    { is_valid := false, warnings := [], errors := ["No OHLC data extracted"],
      quality_score := 0 }
  else
    let changes := price_changes chart.ohlc_data
    let extreme_changes := changes.filter (fun x => decide (0.20 < x))
    let warnings1 :=
      if (changes.length : ℚ) * 0.1 < (extreme_changes.length : ℚ) then
        ["High number of extreme price changes detected: " ++
          toString extreme_changes.length]
      else []
    let inconsistent_candles :=
      (chart.ohlc_data.filter (fun b => ¬ ohlc_consistent b)).length
    let warnings2 :=
      if 0 < inconsistent_candles then
        ["Found " ++ toString inconsistent_candles ++
          " candles with inconsistent OHLC values"]
      else []
    let base_score : ℚ :=
      max 0 (min 1 (1 - (extreme_changes.length : ℚ) * 0.05 -
        (inconsistent_candles : ℚ) * 0.1))
    { is_valid := decide (¬ base_score < 0.5),
      warnings := warnings1 ++ warnings2,
      errors := if base_score < 0.5 then ["Data quality score below acceptable threshold"] else [],
      quality_score := base_score }

/-- `prices.diff()` of `_calculate_rsi_manual` (chart_extractor.py line
214): consecutive close-to-close differences; the leading NaN of the
pandas series is replaced by 0 in the gain/loss series below. -/
def rsi_deltas (closes : List ℚ) : List ℚ :=
  (closes.zip closes.tail).map (fun p => p.2 - p.1)

/-- `(delta.where(delta > 0, 0))` (line 215).  NaN > 0 is false, so the
leading NaN becomes 0 and the series keeps the length of `closes`. -/
def rsi_gains (closes : List ℚ) : List ℚ :=
  0 :: (rsi_deltas closes).map (fun d => if 0 < d then d else 0)

/-- `(-delta.where(delta < 0, 0))` (line 216). -/
def rsi_losses (closes : List ℚ) : List ℚ :=
  0 :: (rsi_deltas closes).map (fun d => if d < 0 then -d else 0)

/-- Last value of `gain.rolling(window=period).mean()` (line 215). -/
def rsi_avg_gain (closes : List ℚ) (period : ℕ) : ℚ :=
  windowMean period (rsi_gains closes)

/-- Last value of `loss.rolling(window=period).mean()` (line 216). -/
def rsi_avg_loss (closes : List ℚ) (period : ℕ) : ℚ :=
  windowMean period (rsi_losses closes)

/-- `ChartExtractor._calculate_rsi_manual` (chart_extractor.py lines
211-222).  Float semantics of line 217-219 made explicit: with zero
average loss, `rs = avg_gain/avg_loss` is `+inf` when the average gain is
positive, giving `rsi = 100 - 100/(1 + inf) = 100.0` exactly, which is
not NaN and is therefore returned; when the average gain is also zero,
`rs` is NaN (0/0), `rsi` is NaN and `None` is returned.  With fewer bars
than the period (or an empty series, where `iloc[-1]` raises into the
`except` handler) the rolling mean is NaN and `None` is returned. -/
def calculate_rsi_manual (closes : List ℚ) (period : ℕ) : Option ℚ :=
  if closes.length < period ∨ period = 0 then none
  else
    let avg_gain := rsi_avg_gain closes period
    let avg_loss := rsi_avg_loss closes period
    if avg_loss = 0 then
      if avg_gain = 0 then none else some 100
    else some (pyround 2 (100 - 100 / (1 + avg_gain / avg_loss)))

/-- Running state of `series.ewm(span=...).mean()` with the pandas
default `adjust=True`: value at index t is
`Σ_i w^i x_(t-i) / Σ_i w^i` with `w = 1 - 2/(span+1)`. -/
def ewmMeanAux (w : ℚ) (xs : List ℚ) (num den : ℚ) : List ℚ :=
  match xs with
  | [] => []
  | x :: rest =>
      let num2 := x + w * num
      let den2 := 1 + w * den
      (num2 / den2) :: ewmMeanAux w rest num2 den2

/-- `series.ewm(span=span).mean()` as a whole series. -/
def ewmMean (span : ℕ) (xs : List ℚ) : List ℚ :=
  ewmMeanAux (1 - 2 / ((span : ℚ) + 1)) xs 0 0

/-- `ChartExtractor._calculate_macd_manual` (chart_extractor.py lines
224-240).  On an empty series `iloc[-1]` raises `IndexError` into the
`except` handler, which returns the all-`None` dictionary; otherwise no
value is NaN. -/
def calculate_macd_manual (closes : List ℚ) (fast slow signal : ℕ) :
    List (String × Option ℚ) :=
  if closes.length = 0 then
    [("MACD", none), ("MACD_Signal", none), ("MACD_Histogram", none)]
  else
    let ema_fast := ewmMean fast closes
    let ema_slow := ewmMean slow closes
    let macd_line := (ema_fast.zip ema_slow).map (fun p => p.1 - p.2)
    let signal_line := ewmMean signal macd_line
    let histogram := (macd_line.zip signal_line).map (fun p => p.1 - p.2)
    [("MACD", macd_line.getLast?.map (pyround 4)),
     ("MACD_Signal", signal_line.getLast?.map (pyround 4)),
     ("MACD_Histogram", histogram.getLast?.map (pyround 4))]

/-- Last value of `prices.rolling(window=k).std()` (pandas sample
standard deviation, ddof = 1).  The square root of the rational variance
is irrational in general; it is approximated by `Rat.sqrt`.  No claim in
this development concerns Bollinger band values, only their keys. -/
def rollingStdLast (k : ℕ) (xs : List ℚ) : ℚ :=
  let w := lastN k xs
  let m := listMean w
  Rat.sqrt ((w.map (fun x => (x - m) ^ 2)).sum / ((k : ℚ) - 1))

/-- `ChartExtractor._calculate_bollinger_bands_manual` (chart_extractor.py
lines 242-257).  With fewer bars than the period the rolling values are
NaN and the `None` dictionary results. -/
def calculate_bollinger_bands_manual (closes : List ℚ) (period : ℕ)
    (std_dev : ℚ) : List (String × Option ℚ) :=
  if closes.length < period ∨ period = 0 then
    [("BB_Upper", none), ("BB_Middle", none), ("BB_Lower", none)]
  else
    let sma := windowMean period closes
    let std := rollingStdLast period closes
    [("BB_Upper", some (pyround 2 (sma + std * std_dev))),
     ("BB_Middle", some (pyround 2 sma)),
     ("BB_Lower", some (pyround 2 (sma - std * std_dev)))]

/-- `%K` of `_calculate_stochastic_manual` at index `i`: NaN (`none`)
while the 14-bar window is not yet full, and NaN when the window range is
zero (`0/0`; the numerator is then also 0 for any candle with
`low ≤ close ≤ high`; the ±inf possible only for range-violating candles
is collapsed into the omitted case as well). -/
def stoch_k_at (highs lows closes : List ℚ) (k_period i : ℕ) : Option ℚ :=
  if i + 1 < k_period ∨ k_period = 0 then none
  else
    let hh := listMax ((highs.take (i + 1)).drop (i + 1 - k_period))
    let ll := listMin ((lows.take (i + 1)).drop (i + 1 - k_period))
    if hh - ll = 0 then none
    else some (100 * ((getQ closes i - ll) / (hh - ll)))

/-- `ChartExtractor._calculate_stochastic_manual` (chart_extractor.py
lines 259-273): the last `%K`, and `%D` as the 3-period rolling mean of
`%K` (NaN whenever any of the last three `%K` values is NaN). -/
def calculate_stochastic_manual (highs lows closes : List ℚ)
    (k_period d_period : ℕ) : List (String × Option ℚ) :=
  let n := closes.length
  if n = 0 ∨ d_period = 0 then [("Stoch_K", none), ("Stoch_D", none)]
  else
    let k_last := stoch_k_at highs lows closes k_period (n - 1)
    let d_last :=
      if n < d_period then none
      else
        let ks := (List.range d_period).map
          (fun j => stoch_k_at highs lows closes k_period (n - d_period + j))
        if ks.all (fun o => o.isSome) then
          some (listMean (ks.map (fun o => o.getD 0)))
        else none
    [("Stoch_K", k_last.map (pyround 2)), ("Stoch_D", d_last.map (pyround 2))]

/-- `self.tech_config.indicators.get(name, False)`. -/
def indicator_flag (tc : TechnicalAnalysisConfig) (k : String) : Bool :=
  (List.lookup k tc.indicators).getD false

/-- Moving-average family of `calculate_technical_indicators`
(chart_extractor.py lines 65-68): one `MA_<period>` key per configured
period with enough history. -/
def ma_entries (tc : TechnicalAnalysisConfig) (closes : List ℚ) :
    List (String × Option ℚ) :=
  if indicator_flag tc "moving_averages" then
    tc.ma_periods.filterMap (fun period =>
      if period ≤ closes.length then
        some ("MA_" ++ toString period, some (windowMean period closes))
      else none)
  else []

/-- RSI family (lines 71-77, manual path). -/
def rsi_entries (tc : TechnicalAnalysisConfig) (closes : List ℚ) :
    List (String × Option ℚ) :=
  if indicator_flag tc "rsi" ∧ tc.rsi_period ≤ closes.length then
    [("RSI", calculate_rsi_manual closes tc.rsi_period)]
  else []

/-- MACD family (lines 80-92, manual path). -/
def macd_entries (tc : TechnicalAnalysisConfig) (closes : List ℚ) :
    List (String × Option ℚ) :=
  if indicator_flag tc "macd" then
    match tc.macd_periods with
    | (fast, slow, signal) =>
        if slow ≤ closes.length then calculate_macd_manual closes fast slow signal
        else []
  else []

/-- Bollinger family (lines 95-109, manual path). -/
def bb_entries (tc : TechnicalAnalysisConfig) (closes : List ℚ) :
    List (String × Option ℚ) :=
  if indicator_flag tc "bollinger_bands" ∧ tc.bb_period ≤ closes.length then
    calculate_bollinger_bands_manual closes tc.bb_period tc.bb_std_dev
  else []

/-- Volume family (lines 112-114).  When all ten window volumes are zero
the Python ratio is NaN (`0/0`, and the latest volume is one of the ten,
so the numerator is 0 too); that NaN, which the `None`-strip of line 133
does not remove, is modeled as an omitted key. -/
def volume_entries (tc : TechnicalAnalysisConfig) (volumes : List ℚ) :
    List (String × Option ℚ) :=
  if indicator_flag tc "volume" ∧ 10 ≤ volumes.length then
    let volume_ma := windowMean 10 volumes
    [("Volume_MA", some volume_ma),
     ("Volume_Ratio",
       if volume_ma = 0 then none
       else some (getQ volumes (volumes.length - 1) / volume_ma))]
  else []

/-- Stochastic family (lines 117-127, manual path, periods 14 and 3). -/
def stoch_entries (tc : TechnicalAnalysisConfig) (highs lows closes : List ℚ) :
    List (String × Option ℚ) :=
  if indicator_flag tc "stochastic" ∧ 14 ≤ closes.length then
    calculate_stochastic_manual highs lows closes 14 3
  else []

/-- The `None`-strip of `calculate_technical_indicators` (line 133):
`{k: v for k, v in indicators.items() if v is not None}`. -/
def stripNone (l : List (String × Option ℚ)) : List (String × ℚ) :=
  l.filterMap (fun e => e.2.map (fun v => (e.1, v)))

/-- `ChartExtractor.calculate_technical_indicators` (chart_extractor.py
lines 50-136, manual indicator paths).  An empty series returns the empty
dictionary; otherwise the six indicator families contribute entries whose
keys are pairwise distinct, and `None` values are stripped at the end. -/
def calculate_technical_indicators (tc : TechnicalAnalysisConfig)
    (chart : ChartData) : List (String × ℚ) :=
  if chart.ohlc_data.isEmpty then []
  else
    let closes := chart.ohlc_data.map (fun d => d.close)
    let highs := chart.ohlc_data.map (fun d => d.high)
    let lows := chart.ohlc_data.map (fun d => d.low)
    let volumes := chart.ohlc_data.map (fun d => d.volume)
    stripNone (ma_entries tc closes ++ rsi_entries tc closes ++
      macd_entries tc closes ++ bb_entries tc closes ++
      volume_entries tc volumes ++ stoch_entries tc highs lows closes)

/-- Bar access `chart_data.ohlc_data[i]` (in-range at every use site by
the surrounding length guards). -/
def getBar (bars : List OHLCData) (i : ℕ) : OHLCData := bars.getD i default

/-- Insertion step of the rational sorting used for `np.percentile`. -/
def insertSorted (x : ℚ) : List ℚ → List ℚ
  | [] => [x]
  | y :: ys => if x ≤ y then x :: y :: ys else y :: insertSorted x ys

/-- Ascending sort of a rational list (insertion sort). -/
def sortQ (xs : List ℚ) : List ℚ := xs.foldr insertSorted []

/-- `np.percentile(xs, q)` with the default linear interpolation:
position `(len-1)·q/100` between the two neighbouring order statistics. -/
def npPercentile (xs : List ℚ) (q : ℚ) : ℚ :=
  let sorted := sortQ xs
  if xs.length = 0 then 0
  else
    let pos : ℚ := ((xs.length : ℚ) - 1) * q / 100
    let f : ℤ := pos.floor
    let fn := f.toNat
    getQ sorted fn + (pos - (f : ℚ)) * (getQ sorted (fn + 1) - getQ sorted fn)

/-- `np.polyfit(range(len(ys)), ys, 1)[0]`: the least-squares slope of
`ys` against its indices, in closed form. -/
def linregSlope (ys : List ℚ) : ℚ :=
  let n : ℚ := ys.length
  let xs : List ℚ := (List.range ys.length).map (fun i => (i : ℚ))
  let sx := xs.sum
  let sy := ys.sum
  let sxy := ((xs.zip ys).map (fun p => p.1 * p.2)).sum
  let sxx := (xs.map (fun x => x * x)).sum
  (n * sxy - sx * sy) / (n * sxx - sx * sx)

/-- `np.corrcoef(range(len(ys)), ys)[0, 1] ** 2`, which is the rational
`cov² / (var_x · var_y)`.  For a constant `ys` numpy yields NaN, whose
comparisons are all false; the rational value 0 produced here behaves
identically under the `> 0.15` tests of the triangle detector. -/
def r2Of (ys : List ℚ) : ℚ :=
  let n : ℚ := ys.length
  let xs : List ℚ := (List.range ys.length).map (fun i => (i : ℚ))
  let sx := xs.sum
  let sy := ys.sum
  let sxy := ((xs.zip ys).map (fun p => p.1 * p.2)).sum
  let sxx := (xs.map (fun x => x * x)).sum
  let syy := (ys.map (fun y => y * y)).sum
  (n * sxy - sx * sy) ^ 2 / ((n * sxx - sx * sx) * (n * syy - sy * sy))

/-- The 5-bar symmetric local-minimum scan of `_detect_double_bottom`
(predictor.py lines 107-113): index/value pairs, in ascending index
order. -/
def local_min_points (lows : List ℚ) (window : ℕ) : List (ℕ × ℚ) :=
  ((List.range lows.length).filter (fun i =>
    decide (window ≤ i) && decide (i + window < lows.length) &&
    ((List.range window).all (fun j => decide (getQ lows i ≤ getQ lows (i - (j + 1))))) &&
    ((List.range window).all (fun j => decide (getQ lows i ≤ getQ lows (i + (j + 1)))))))
    |>.map (fun i => (i, getQ lows i))

/-- The matching 5-bar local-maximum scan (lines 146-152 and 186-191). -/
def local_max_points (highs : List ℚ) (window : ℕ) : List (ℕ × ℚ) :=
  ((List.range highs.length).filter (fun i =>
    decide (window ≤ i) && decide (i + window < highs.length) &&
    ((List.range window).all (fun j => decide (getQ highs (i - (j + 1)) ≤ getQ highs i))) &&
    ((List.range window).all (fun j => decide (getQ highs (i + (j + 1)) ≤ getQ highs i)))))
    |>.map (fun i => (i, getQ highs i))

/-- `max(highs[a:b])`. -/
def sliceMaxQ (xs : List ℚ) (a b : ℕ) : ℚ := listMax ((xs.drop a).take (b - a))

/-- `min(lows[a:b])`. -/
def sliceMinQ (xs : List ℚ) (a b : ℕ) : ℚ := listMin ((xs.drop a).take (b - a))

/-- Inner loop of `_detect_double_bottom` for outer index `i` (lines
116-135): the first later minimum within 2% whose intervening peak is
more than 5% higher yields one pattern, then the loop breaks. -/
def double_bottom_candidate (highs : List ℚ) (mins : List (ℕ × ℚ))
    (bars : List OHLCData) (i : ℕ) : Option Pattern :=
  (((List.range mins.length).drop (i + 1)).find? (fun j =>
    let p1 := mins.getD i (0, 0)
    let p2 := mins.getD j (0, 0)
    decide (|p1.2 - p2.2| / p1.2 < 0.02) &&
    decide (0.05 < (sliceMaxQ highs p1.1 p2.1 - min p1.2 p2.2) / min p1.2 p2.2))).map
    (fun j =>
      let p1 := mins.getD i (0, 0)
      let p2 := mins.getD j (0, 0)
      { name := "Double Bottom"
        confidence := min 0.85 (0.5 + ((j - i : ℕ) : ℚ) * 0.05)
        start_time := toString (getBar bars p1.1).timestamp
        end_time := toString (getBar bars p2.1).timestamp
        pattern_type := "bullish"
        description := "Double bottom at $" ++ fmtFixed 2 p1.2 ++ " and $" ++
          fmtFixed 2 p2.2 })

/-- `ChartPredictor._detect_double_bottom` (predictor.py lines 100-137). -/
def detect_double_bottom (closes highs lows : List ℚ) (bars : List OHLCData) :
    List Pattern :=
  if lows.length < 20 then []
  else
    let mins := local_min_points lows 5
    (List.range (mins.length - 1)).filterMap (double_bottom_candidate highs mins bars)

/-- Inner loop of `_detect_double_top` for outer index `i` (lines
155-174). -/
def double_top_candidate (lows : List ℚ) (maxs : List (ℕ × ℚ))
    (bars : List OHLCData) (i : ℕ) : Option Pattern :=
  (((List.range maxs.length).drop (i + 1)).find? (fun j =>
    let p1 := maxs.getD i (0, 0)
    let p2 := maxs.getD j (0, 0)
    decide (|p1.2 - p2.2| / p1.2 < 0.02) &&
    decide (0.05 < (min p1.2 p2.2 - sliceMinQ lows p1.1 p2.1) / sliceMinQ lows p1.1 p2.1))).map
    (fun j =>
      let p1 := maxs.getD i (0, 0)
      let p2 := maxs.getD j (0, 0)
      { name := "Double Top"
        confidence := min 0.85 (0.5 + ((j - i : ℕ) : ℚ) * 0.05)
        start_time := toString (getBar bars p1.1).timestamp
        end_time := toString (getBar bars p2.1).timestamp
        pattern_type := "bearish"
        description := "Double top at $" ++ fmtFixed 2 p1.2 ++ " and $" ++
          fmtFixed 2 p2.2 })

/-- `ChartPredictor._detect_double_top` (predictor.py lines 139-176). -/
def detect_double_top (closes highs lows : List ℚ) (bars : List OHLCData) :
    List Pattern :=
  if highs.length < 20 then []
  else
    let maxs := local_max_points highs 5
    (List.range (maxs.length - 1)).filterMap (double_top_candidate lows maxs bars)

/-- `ChartPredictor._detect_head_shoulders` (predictor.py lines 178-241):
every consecutive local-maxima triple where the head exceeds both
shoulders by >2%, the shoulders agree within 8% and both spacings exceed
3 bars emits one bearish pattern (no break). -/
def detect_head_shoulders (closes highs lows : List ℚ) (bars : List OHLCData) :
    List Pattern :=
  if highs.length < 25 then []
  else
    let maxs := local_max_points highs 5
    if 3 ≤ maxs.length then
      (List.range (maxs.length - 2)).filterMap (fun i =>
        let left_shoulder := maxs.getD i (0, 0)
        let head := maxs.getD (i + 1) (0, 0)
        let right_shoulder := maxs.getD (i + 2) (0, 0)
        if decide (left_shoulder.2 * 1.02 < head.2) &&
           decide (right_shoulder.2 * 1.02 < head.2) &&
           decide (|left_shoulder.2 - right_shoulder.2| / left_shoulder.2 < 0.08) then
          if decide (3 < head.1 - left_shoulder.1) &&
             decide (3 < right_shoulder.1 - head.1) then
            some
              { name := "Head and Shoulders"
                confidence := min 0.8 (0.6 +
                  (head.2 / max left_shoulder.2 right_shoulder.2 - 1) * 5)
                start_time := toString (getBar bars left_shoulder.1).timestamp
                end_time := toString (getBar bars right_shoulder.1).timestamp
                pattern_type := "bearish"
                description := "Head at $" ++ fmtFixed 2 head.2 ++
                  ", shoulders at $" ++ fmtFixed 2 left_shoulder.2 ++ " and $" ++
                  fmtFixed 2 right_shoulder.2 }
          else none
        else none)
    else []

/-- `ChartPredictor._detect_triangles` (predictor.py lines 243-355):
regression slopes of highs and lows over an adaptive window, normalized
as percent of the average close, classified by flat/rising/falling
thresholds when at least one R² exceeds 0.15. -/
def detect_triangles (closes highs lows : List ℚ) (bars : List OHLCData) :
    List Pattern :=
  if closes.length < 20 then []
  else
    let n := closes.length
    let analysis_period := min 50 (max 20 (n / 2))
    let recent_highs := lastN analysis_period highs
    let recent_lows := lastN analysis_period lows
    let recent_closes := lastN analysis_period closes
    let high_slope := linregSlope recent_highs
    let low_slope := linregSlope recent_lows
    let avg_price := listMean recent_closes
    let high_slope_pct := high_slope / avg_price * 100
    let low_slope_pct := low_slope / avg_price * 100
    let high_r2 := r2Of recent_highs
    let low_r2 := r2Of recent_lows
    let start_time := toString (getBar bars (n - analysis_period)).timestamp
    let end_time := toString (getBar bars (n - 1)).timestamp
    if 0.15 < high_r2 ∨ 0.15 < low_r2 then
      if |high_slope_pct| < 0.15 ∧ 0.05 < low_slope_pct then
        [{ name := "Ascending Triangle"
           confidence := min 0.8 (0.5 + low_r2 * 0.3)
           start_time := start_time, end_time := end_time
           pattern_type := "bullish"
           description := "Ascending triangle (R²: " ++ fmtFixed 2 low_r2 ++ ")" }]
      else if high_slope_pct < -0.05 ∧ |low_slope_pct| < 0.15 then
        [{ name := "Descending Triangle"
           confidence := min 0.8 (0.5 + high_r2 * 0.3)
           start_time := start_time, end_time := end_time
           pattern_type := "bearish"
           description := "Descending triangle (R²: " ++ fmtFixed 2 high_r2 ++ ")" }]
      else if high_slope_pct < -0.05 ∧ 0.05 < low_slope_pct then
        [{ name := "Symmetrical Triangle"
           confidence := min 0.75 (0.45 + min high_r2 low_r2 * 0.3)
           start_time := start_time, end_time := end_time
           pattern_type := "neutral"
           description := "Symmetrical triangle (R²: " ++
             fmtFixed 2 (min high_r2 low_r2) ++ ")" }]
      else if |high_slope_pct| < 0.15 ∧ |low_slope_pct| < 0.15 then
        [{ name := "Consolidation Triangle"
           confidence := min 0.7 (0.4 + (high_r2 + low_r2) / 2 * 0.3)
           start_time := start_time, end_time := end_time
           pattern_type := "neutral"
           description := "Sideways consolidation (R²: " ++
             fmtFixed 2 ((high_r2 + low_r2) / 2) ++ ")" }]
      else []
    else []

/-- `ChartPredictor._detect_breakouts` (predictor.py lines 357-474): the
latest close against three resistance and three support candidates with
escalating thresholds; the first exceeded level on each side emits one
pattern.  The volume multiplier expression is identical at every level
and is hoisted here. -/
def detect_breakouts (closes highs lows volumes : List ℚ)
    (bars : List OHLCData) : List Pattern :=
  if closes.length < 15 then []
  else
    let n := closes.length
    let recent_period := min 20 (n - 5)
    let recent_highs := lastN recent_period highs
    let recent_lows := lastN recent_period lows
    let recent_volumes := lastN recent_period volumes
    let resistance_levels := [listMax (dropLastK 5 recent_highs),
      npPercentile recent_highs 90, npPercentile recent_highs 85]
    let support_levels := [listMin (dropLastK 5 recent_lows),
      npPercentile recent_lows 10, npPercentile recent_lows 15]
    let current_price := getQ closes (n - 1)
    let avg_volume := listMean (dropLastK 3 recent_volumes)
    let current_volume :=
      if 0 < volumes.length then getQ volumes (volumes.length - 1) else avg_volume
    let volume_multiplier : ℚ :=
      if avg_volume * 1.2 < current_volume then
        min 1.3 (current_volume / avg_volume / 1.2)
      else 1
    let start_time := toString (getBar bars (n - 5)).timestamp
    let end_time := toString (getBar bars (n - 1)).timestamp
    let resistance_pattern :=
      (((List.range 3).zip resistance_levels).find? (fun p =>
        decide (p.2 * (1.005 + (p.1 : ℚ) * 0.003) < current_price))).map (fun p =>
        { name := (["Minor", "Moderate", "Strong"].getD p.1 "") ++
            " Resistance Breakout"
          confidence := min 0.85 ((0.55 + (p.1 : ℚ) * 0.05) * volume_multiplier)
          start_time := start_time, end_time := end_time
          pattern_type := "bullish"
          description := "Breakout above $" ++ fmtFixed 2 p.2 ++ " (" ++
            fmtFixed 1 ((1.005 + (p.1 : ℚ) * 0.003 - 1) * 100) ++ "% threshold)" })
    let support_pattern :=
      (((List.range 3).zip support_levels).find? (fun p =>
        decide (current_price < p.2 * (0.995 - (p.1 : ℚ) * 0.003)))).map (fun p =>
        { name := (["Minor", "Moderate", "Strong"].getD p.1 "") ++
            " Support Breakdown"
          confidence := min 0.85 ((0.55 + (p.1 : ℚ) * 0.05) * volume_multiplier)
          start_time := start_time, end_time := end_time
          pattern_type := "bearish"
          description := "Breakdown below $" ++ fmtFixed 2 p.2 ++ " (" ++
            fmtFixed 1 ((1 - (0.995 - (p.1 : ℚ) * 0.003)) * 100) ++ "% threshold)" })
    resistance_pattern.toList ++ support_pattern.toList

/-- `ChartPredictor._detect_trend_channels` (predictor.py lines 476-527). -/
def detect_trend_channels (closes : List ℚ) (bars : List OHLCData) :
    List Pattern :=
  if closes.length < 50 then []
  else
    let n := closes.length
    let short_slope := linregSlope (lastN 20 closes)
    let long_slope := linregSlope (lastN 50 closes)
    let price_change := (getQ closes (n - 1) - getQ closes (n - 20)) / getQ closes (n - 20)
    let start_time := toString (getBar bars (n - 20)).timestamp
    let end_time := toString (getBar bars (n - 1)).timestamp
    if 0 < short_slope ∧ 0 < long_slope ∧ 0.05 < price_change then
      [{ name := "Uptrend Channel"
         confidence := min 0.8 (0.5 + |price_change| * 2)
         start_time := start_time, end_time := end_time
         pattern_type := "bullish"
         description := "Strong uptrend with " ++ fmtFixed 1 (price_change * 100) ++
           "% gain" }]
    else if short_slope < 0 ∧ long_slope < 0 ∧ price_change < -0.05 then
      [{ name := "Downtrend Channel"
         confidence := min 0.8 (0.5 + |price_change| * 2)
         start_time := start_time, end_time := end_time
         pattern_type := "bearish"
         description := "Strong downtrend with " ++ fmtFixed 1 (price_change * 100) ++
           "% decline" }]
    else if |short_slope| < |long_slope| * 0.3 then
      [{ name := "Trend Weakening"
         confidence := 0.6
         start_time := start_time, end_time := end_time
         pattern_type := "neutral"
         description := "Previous " ++
           (if 0 < long_slope then "bullish" else "bearish") ++
           " trend showing signs of weakening" }]
    else []

/-- `ChartPredictor.detect_patterns` (predictor.py lines 56-98).  The
guard `if not chart_data.ohlc_data or len(chart_data.ohlc_data) < 20`
collapses to the single length test; otherwise all six detectors run and
their outputs are concatenated without filtering. -/
def detect_patterns (chart : ChartData) : List Pattern :=
  if chart.ohlc_data.length < 20 then []
  else
    let closes := chart.ohlc_data.map (fun d => d.close)
    let highs := chart.ohlc_data.map (fun d => d.high)
    let lows := chart.ohlc_data.map (fun d => d.low)
    let volumes := chart.ohlc_data.map (fun d => d.volume)
    detect_double_bottom closes highs lows chart.ohlc_data ++
    detect_double_top closes highs lows chart.ohlc_data ++
    detect_head_shoulders closes highs lows chart.ohlc_data ++
    detect_triangles closes highs lows chart.ohlc_data ++
    detect_breakouts closes highs lows volumes chart.ohlc_data ++
    detect_trend_channels closes chart.ohlc_data
/-! Concrete instances used by the per-claim counterexamples and witnesses. -/

/-- Concrete empty series for the C8 witness. -/
def c8Chart : ChartData :=
  { ohlc_data := [], price_levels := [], timeframe := "1h", symbol := "EMPTY",
    extraction_confidence := 1 }

/-- Concrete prediction for the C9 witness. -/
def c9Pred : Prediction :=
  { direction := "UP", confidence := 0.7, target_price := some 110,
    time_horizon := "24h", reasoning := "test" }

/-- Concrete 20-bar series for the C9 witness. -/
def c9Data : List OHLCData :=
  (List.range 20).map (fun i =>
    { timestamp := i, open_ := 100, high := 101, low := 99, close := 100, volume := 10 })

/-- Concrete prediction for the C2 witness. -/
def c2Pred : Prediction :=
  { direction := "UP", confidence := 0.75, target_price := some 110,
    time_horizon := "24h", reasoning := "test" }

/-- Concrete 50-bar series for the C2 witness. -/
def c2Data : List OHLCData :=
  (List.range 50).map (fun i =>
    { timestamp := i, open_ := 100, high := 101, low := 99, close := 100 + i, volume := 10 })

/-- Concrete series without price levels for the C10 witness. -/
def c10Chart : ChartData :=
  { ohlc_data := [], price_levels := [], timeframe := "1h", symbol := "T",
    extraction_confidence := 1 }

/-- Concrete indicator map for the C4 counterexample: MACD present but 0. -/
def c4TA : List (String × ℚ) := [("MACD", 0), ("MACD_Signal", 1)]

/-- Concrete series for the C1 counterexample: consistent candles with a 30% open gap. -/
def c1Chart : ChartData :=
  { ohlc_data := [
      { timestamp := 0, open_ := 100, high := 100, low := 100, close := 100, volume := 0 },
      { timestamp := 1, open_ := 130, high := 130, low := 130, close := 130, volume := 0 }],
    price_levels := [], timeframe := "1h", symbol := "T", extraction_confidence := 1 }

/-- Concrete flat series for the C1 witness. -/
def c1FlatChart : ChartData :=
  { ohlc_data := [
      { timestamp := 0, open_ := 100, high := 100, low := 100, close := 100, volume := 0 },
      { timestamp := 1, open_ := 100, high := 100, low := 100, close := 100, volume := 0 }],
    price_levels := [], timeframe := "1h", symbol := "T", extraction_confidence := 1 }

/-- Concrete trading configuration (defaults, both filters on) for the C6 witness. -/
def c6TC : TradingConfig :=
  { max_risk_per_trade := 0.02, stop_loss_multiplier := 2, take_profit_multiplier := 3,
    signal_filters := [("trend_confirmation", true), ("volume_confirmation", true)] }

/-- Concrete low-confidence prediction for the C6 witness. -/
def c6Pred : Prediction :=
  { direction := "UP", confidence := 0.5, target_price := some 110,
    time_horizon := "24h", reasoning := "low confidence test" }

/-- Concrete configuration with only RSI enabled for C3. -/
def c3Cfg : TechnicalAnalysisConfig :=
  { indicators := [("rsi", true)], rsi_period := 14, macd_periods := (12, 26, 9),
    bb_period := 20, bb_std_dev := 2, ma_periods := [9, 21, 50, 200] }

/-- Bar constructor for the C3 series (all four prices equal). -/
def c3Bar (i : ℕ) (v : ℚ) : OHLCData :=
  { timestamp := i, open_ := v, high := v, low := v, close := v, volume := 0 }

/-- Concrete 15-bar strictly rising series for the C3 counterexample. -/
def c3Chart : ChartData :=
  { ohlc_data := [c3Bar 0 1, c3Bar 1 2, c3Bar 2 3, c3Bar 3 4, c3Bar 4 5,
      c3Bar 5 6, c3Bar 6 7, c3Bar 7 8, c3Bar 8 9, c3Bar 9 10, c3Bar 10 11,
      c3Bar 11 12, c3Bar 12 13, c3Bar 13 14, c3Bar 14 15],
    price_levels := [], timeframe := "1h", symbol := "T", extraction_confidence := 1 }

/-- Concrete 15-bar flat series for the C3 witness. -/
def c3FlatChart : ChartData :=
  { ohlc_data := [c3Bar 0 100, c3Bar 1 100, c3Bar 2 100, c3Bar 3 100, c3Bar 4 100,
      c3Bar 5 100, c3Bar 6 100, c3Bar 7 100, c3Bar 8 100, c3Bar 9 100, c3Bar 10 100,
      c3Bar 11 100, c3Bar 12 100, c3Bar 13 100, c3Bar 14 100],
    price_levels := [], timeframe := "1h", symbol := "T", extraction_confidence := 1 }

/-! Shared helper lemmas. -/

lemma optTruthy_eq_some {v : Option ℚ} {x : ℚ} (h : optTruthy v = some x) :
    x ≠ 0 ∧ v = some x := by
  cases v with
  | none => simp [optTruthy] at h
  | some y =>
      by_cases hy : y = 0
      · simp [optTruthy, hy] at h
      · simp [optTruthy, hy] at h
        subst h
        exact ⟨hy, rfl⟩

lemma optTruthy_some_ne {x : ℚ} (hx : x ≠ 0) : optTruthy (some x) = some x := by
  simp [optTruthy, hx]

lemma string_append3 (r a b c : String) : ∃ t, r ++ a ++ b ++ c = r ++ t :=
  ⟨a ++ b ++ c, by
    apply String.ext
    simp [String.data_append]⟩

lemma pyround_zero (nd : ℕ) : pyround nd 0 = 0 := by
  simp [pyround, roundHalfEven]

lemma apply_trend_filter_fields (s : TradingSignal) (ta : List (String × ℚ)) :
    (apply_trend_filter s ta).action = s.action ∧
    (apply_trend_filter s ta).entry_price = s.entry_price ∧
    (apply_trend_filter s ta).stop_loss = s.stop_loss ∧
    (apply_trend_filter s ta).take_profit = s.take_profit ∧
    (apply_trend_filter s ta).risk_reward_ratio = s.risk_reward_ratio ∧
    strengthRank (apply_trend_filter s ta).strength ≤ strengthRank s.strength ∧
    ∃ t, (apply_trend_filter s ta).reasoning = s.reasoning ++ t := by
  unfold apply_trend_filter
  split <;>
    first
      | exact ⟨rfl, rfl, rfl, rfl, rfl, le_refl _, ⟨"", by simp⟩⟩
      | (split_ifs <;>
          first
            | exact ⟨rfl, rfl, rfl, rfl, rfl, le_refl _, ⟨"", by simp⟩⟩
            | exact ⟨rfl, rfl, rfl, rfl, rfl, Nat.zero_le _, ⟨_, rfl⟩⟩)

lemma apply_volume_filter_fields (s : TradingSignal) (ta : List (String × ℚ)) :
    (apply_volume_filter s ta).action = s.action ∧
    (apply_volume_filter s ta).entry_price = s.entry_price ∧
    (apply_volume_filter s ta).stop_loss = s.stop_loss ∧
    (apply_volume_filter s ta).take_profit = s.take_profit ∧
    (apply_volume_filter s ta).risk_reward_ratio = s.risk_reward_ratio ∧
    strengthRank (apply_volume_filter s ta).strength ≤ strengthRank s.strength ∧
    ∃ t, (apply_volume_filter s ta).reasoning = s.reasoning ++ t := by
  unfold apply_volume_filter
  split <;>
    first
      | exact ⟨rfl, rfl, rfl, rfl, rfl, le_refl _, ⟨"", by simp⟩⟩
      | (split_ifs <;>
          first
            | exact ⟨rfl, rfl, rfl, rfl, rfl, le_refl _, ⟨"", by simp⟩⟩
            | exact ⟨rfl, rfl, rfl, rfl, rfl,
                (by cases s.strength <;> simp [strengthRank]), string_append3 _ _ _ _⟩)

lemma generate_filters_preserve (tc : TradingConfig) (pred : Prediction)
    (ta : List (String × ℚ)) :
    (generate_trading_signals tc pred ta).action = (generate_base_signal tc pred).action ∧
    (generate_trading_signals tc pred ta).entry_price = (generate_base_signal tc pred).entry_price ∧
    (generate_trading_signals tc pred ta).risk_reward_ratio =
      (generate_base_signal tc pred).risk_reward_ratio := by
  unfold generate_trading_signals
  by_cases f1 : (List.lookup "trend_confirmation" tc.signal_filters).getD false <;>
    by_cases f2 : (List.lookup "volume_confirmation" tc.signal_filters).getD false <;>
      simp [f1, f2]
  · refine ⟨?_, ?_, ?_⟩
    · rw [(apply_volume_filter_fields _ _).1, (apply_trend_filter_fields _ _).1]
    · rw [(apply_volume_filter_fields _ _).2.1, (apply_trend_filter_fields _ _).2.1]
    · rw [(apply_volume_filter_fields _ _).2.2.2.2.1, (apply_trend_filter_fields _ _).2.2.2.2.1]
  · refine ⟨?_, ?_, ?_⟩
    · rw [(apply_trend_filter_fields _ _).1]
    · rw [(apply_trend_filter_fields _ _).2.1]
    · rw [(apply_trend_filter_fields _ _).2.2.2.2.1]
  · refine ⟨?_, ?_, ?_⟩
    · rw [(apply_volume_filter_fields _ _).1]
    · rw [(apply_volume_filter_fields _ _).2.1]
    · rw [(apply_volume_filter_fields _ _).2.2.2.2.1]

lemma generate_base_hold (tc : TradingConfig) (pred : Prediction)
    (h : pred.confidence < 0.6) : (generate_base_signal tc pred).action = "HOLD" := by
  simp [generate_base_signal, h]

lemma generate_base_ratio (tc : TradingConfig) (pred : Prediction)
    (h : (generate_base_signal tc pred).entry_price = none) :
    (generate_base_signal tc pred).risk_reward_ratio = 0 := by
  unfold generate_base_signal at h ⊢
  split_ifs at h ⊢ <;>
    first
    | rfl
    | (rcases hT : optTruthy pred.target_price with _ | t
       · simp [hT, optTruthy, pyround_zero]
       · obtain ⟨ht0, -⟩ := optTruthy_eq_some hT
         exfalso
         simp only [hT, Option.map_eq_none'] at h
         simp [optTruthy, ht0] at h
         all_goals norm_num at h)

lemma lookup_eq_none_of_keys {β : Type} (k : String) (l : List (String × β))
    (h : ∀ p ∈ l, p.1 ≠ k) : List.lookup k l = none := by
  induction l with
  | nil => rfl
  | cons a l ih =>
      obtain ⟨k1, v1⟩ := a
      have hk : (k == k1) = false :=
        beq_eq_false_iff_ne.mpr (fun hh => (h (k1, v1) (List.mem_cons_self _ _)) hh.symm)
      simp only [List.lookup, hk]
      exact ih (fun p hp => h p (List.mem_cons_of_mem _ hp))

lemma ma_key_ne_rsi (s : String) : "MA_" ++ s ≠ "RSI" := by
  intro h
  have h2 : ('M' :: 'A' :: '_' :: s.data) = ['R', 'S', 'I'] := congrArg String.data h
  injection h2 with h3 h4
  injection h4 with h5 h6
  exact absurd h5 (by decide)

lemma ma_entries_keys (tc : TechnicalAnalysisConfig) (closes : List ℚ) :
    ∀ p ∈ ma_entries tc closes, p.1 ≠ "RSI" := by
  intro p hp
  unfold ma_entries at hp
  split_ifs at hp
  case pos =>
    simp only [List.mem_filterMap] at hp
    obtain ⟨period, hmem, heq⟩ := hp
    by_cases hc : period ≤ closes.length
    · rw [if_pos hc] at heq
      injection heq with heq2
      rw [← heq2]
      exact ma_key_ne_rsi (toString period)
    · rw [if_neg hc] at heq
      cases heq
  case neg => cases hp

lemma macd_manual_keys (closes : List ℚ) (fast slow signal : ℕ) :
    ∀ p ∈ calculate_macd_manual closes fast slow signal, p.1 ≠ "RSI" := by
  intro p hp
  unfold calculate_macd_manual at hp
  split_ifs at hp <;>
    (simp only [List.mem_cons, List.not_mem_nil, or_false] at hp
     rcases hp with rfl | rfl | rfl <;> simp)

lemma macd_entries_keys (tc : TechnicalAnalysisConfig) (closes : List ℚ) :
    ∀ p ∈ macd_entries tc closes, p.1 ≠ "RSI" := by
  intro p hp
  unfold macd_entries at hp
  split_ifs at hp
  case pos =>
    rcases htp : tc.macd_periods with ⟨fast, rest⟩
    rcases rest with ⟨slow, signal⟩
    rw [htp] at hp
    simp only at hp
    split_ifs at hp
    case pos => exact macd_manual_keys closes fast slow signal p hp
    case neg => cases hp
  case neg => cases hp

lemma bb_manual_keys (closes : List ℚ) (period : ℕ) (std_dev : ℚ) :
    ∀ p ∈ calculate_bollinger_bands_manual closes period std_dev, p.1 ≠ "RSI" := by
  intro p hp
  unfold calculate_bollinger_bands_manual at hp
  split_ifs at hp <;>
    (simp only [List.mem_cons, List.not_mem_nil, or_false] at hp
     rcases hp with rfl | rfl | rfl <;> simp)

lemma bb_entries_keys (tc : TechnicalAnalysisConfig) (closes : List ℚ) :
    ∀ p ∈ bb_entries tc closes, p.1 ≠ "RSI" := by
  intro p hp
  unfold bb_entries at hp
  split_ifs at hp
  case pos => exact bb_manual_keys closes tc.bb_period tc.bb_std_dev p hp
  case neg => cases hp

lemma volume_entries_keys (tc : TechnicalAnalysisConfig) (volumes : List ℚ) :
    ∀ p ∈ volume_entries tc volumes, p.1 ≠ "RSI" := by
  intro p hp
  unfold volume_entries at hp
  split_ifs at hp
  case pos =>
    simp only [List.mem_cons, List.not_mem_nil, or_false] at hp
    rcases hp with rfl | rfl <;> simp
  case neg => cases hp

lemma stoch_manual_keys (highs lows closes : List ℚ) (kp dp : ℕ) :
    ∀ p ∈ calculate_stochastic_manual highs lows closes kp dp, p.1 ≠ "RSI" := by
  intro p hp
  simp only [calculate_stochastic_manual] at hp
  split_ifs at hp <;>
    (simp only [List.mem_cons, List.not_mem_nil, or_false] at hp
     rcases hp with rfl | rfl <;> simp)

lemma stoch_entries_keys (tc : TechnicalAnalysisConfig) (highs lows closes : List ℚ) :
    ∀ p ∈ stoch_entries tc highs lows closes, p.1 ≠ "RSI" := by
  intro p hp
  unfold stoch_entries at hp
  split_ifs at hp
  case pos => exact stoch_manual_keys highs lows closes 14 3 p hp
  case neg => cases hp

lemma calculate_rsi_manual_none (closes : List ℚ) (period : ℕ)
    (hloss : rsi_avg_loss closes period = 0)
    (hgain : rsi_avg_gain closes period = 0) :
    calculate_rsi_manual closes period = none := by
  simp [calculate_rsi_manual, hloss, hgain]

/-! Per-claim theorems. -/

/-- Claim C1, counterexample: a two-bar series whose candles are all
OHLC-consistent but whose second open gaps 30% above the first close gets
quality score 0.95, not 1.0 — the extreme-price-change penalty of
`validate_extracted_data` fires even with fully consistent candles. -/
theorem C1_counterexample :
    c1Chart.ohlc_data ≠ [] ∧
    (∀ b ∈ c1Chart.ohlc_data, ohlc_consistent b = true) ∧
    (validate_extracted_data c1Chart).quality_score = 0.95 ∧
    (0.95 : ℚ) ≠ 1 := by
  refine ⟨by simp [c1Chart], by decide, ?_, by norm_num⟩
  norm_num [validate_extracted_data, c1Chart, price_changes, ohlc_consistent]

/-- Claim C1, amended: for every non-empty series in which every candle is
OHLC-consistent, all closes are positive, and no consecutive open moves
more than 20% away from the previous close, `validate_extracted_data`
returns a quality score of exactly 1.0. -/
theorem C1_quality_score_amended (chart : ChartData)
    (hne : chart.ohlc_data ≠ [])
    (hcons : ∀ b ∈ chart.ohlc_data, ohlc_consistent b = true)
    (hpos : ∀ b ∈ chart.ohlc_data, 0 < b.close)
    (hjump : ∀ p ∈ chart.ohlc_data.zip chart.ohlc_data.tail,
      |p.2.open_ - p.1.close| ≤ 0.20 * p.1.close) :
    (validate_extracted_data chart).quality_score = 1 := by
  have hempty : chart.ohlc_data.isEmpty = false := by
    cases hh : chart.ohlc_data with
    | nil => exact absurd hh hne
    | cons a l => rfl
  have hfilter : (price_changes chart.ohlc_data).filter (fun x => decide (0.20 < x)) = [] := by
    rw [List.filter_eq_nil_iff]
    intro x hx
    simp only [price_changes, List.mem_map] at hx
    obtain ⟨p, hp, rfl⟩ := hx
    have h1 := hjump p hp
    have h2 : (0 : ℚ) < p.1.close := hpos p.1 (List.of_mem_zip hp).1
    simp only [decide_eq_true_eq, not_lt]
    rw [div_le_iff₀ h2]
    exact h1
  have hincons : chart.ohlc_data.filter (fun b => !ohlc_consistent b) = [] := by
    rw [List.filter_eq_nil_iff]
    intro b hb
    simp [hcons b hb]
  unfold validate_extracted_data
  simp [hempty, hfilter, hincons]

/-- Claim C1, witness: the amended theorem applied to a concrete flat
two-bar series. -/
theorem C1_witness : (validate_extracted_data c1FlatChart).quality_score = 1 :=
  C1_quality_score_amended c1FlatChart (by simp [c1FlatChart]) (by decide) (by decide)
    (by
      intro p hp
      simp [c1FlatChart, List.zip] at hp
      subst hp
      norm_num)

/-- Claim C2: for every series of at least 30 bars, `backtest_prediction`
returns the all-zero empty report with zero simulated predictions — the
simulation loop bound reads the nonexistent attribute
`prediction.time_horizon_hours`, raising `AttributeError` which the
`except` handler converts to the empty report.  This contradicts the
claimed sliding-window accuracy computation, whose intent is witnessed by
the unused `ChartPredictor.time_horizon_hours` property. -/
theorem C2_backtest_always_empty (pred : Prediction) (data : List OHLCData)
    (h : 30 ≤ data.length) :
    backtest_prediction pred data = get_empty_backtest_results ∧
    (backtest_prediction pred data).total_predictions = 0 ∧
    (backtest_prediction pred data).accuracy = 0 := by
  have hmain : backtest_prediction pred data = get_empty_backtest_results := by
    unfold backtest_prediction run_backtest_simulation
    have h10 : ¬ data.length < 10 := by omega
    have hlen : ¬ (data.map (fun d => d.close)).length < 30 := by
      simp; omega
    have h30 : ¬ data.length < 30 := by omega
    simp [h10, hlen, h30]
  exact ⟨hmain, by rw [hmain]; rfl, by rw [hmain]; rfl⟩

/-- Claim C2, witness: the theorem applied to a concrete 50-bar series. -/
theorem C2_witness :
    30 ≤ c2Data.length ∧
    backtest_prediction c2Pred c2Data = get_empty_backtest_results :=
  ⟨by simp [c2Data], (C2_backtest_always_empty c2Pred c2Data (by simp [c2Data])).1⟩

/-- Claim C3, amended: with RSI enabled and at least `rsi_period` bars, the
indicator map omits the "RSI" key when the average loss AND the average
gain over the period are both 0 (the 0/0 NaN case); no other indicator
family ever produces the "RSI" key. -/
theorem C3_rsi_key_amended (tc : TechnicalAnalysisConfig) (chart : ChartData)
    (hflag : indicator_flag tc "rsi" = true)
    (hlen : tc.rsi_period ≤ chart.ohlc_data.length)
    (hloss : rsi_avg_loss (chart.ohlc_data.map (fun d => d.close)) tc.rsi_period = 0)
    (hgain : rsi_avg_gain (chart.ohlc_data.map (fun d => d.close)) tc.rsi_period = 0) :
    List.lookup "RSI" (calculate_technical_indicators tc chart) = none := by
  unfold calculate_technical_indicators
  by_cases hemp : chart.ohlc_data.isEmpty
  · simp [hemp]
  · simp only [hemp, Bool.false_eq_true, if_false]
    apply lookup_eq_none_of_keys
    intro p hp
    unfold stripNone at hp
    simp only [List.mem_filterMap] at hp
    obtain ⟨e, he, hmap⟩ := hp
    rcases he2 : e.2 with _ | v
    · rw [he2] at hmap
      cases hmap
    · rw [he2] at hmap
      injection hmap with hmap2
      rw [← hmap2]
      show e.1 ≠ "RSI"
      rcases List.mem_append.mp he with he1 | he6
      rcases List.mem_append.mp he1 with he1 | he5
      rcases List.mem_append.mp he1 with he1 | he4
      rcases List.mem_append.mp he1 with he1 | he3
      rcases List.mem_append.mp he1 with he1 | he2r
      · exact ma_entries_keys tc _ e he1
      · -- RSI family: its single entry has value none, contradicting he2
        exfalso
        unfold rsi_entries at he2r
        have hlen2 : tc.rsi_period ≤ (chart.ohlc_data.map (fun d => d.close)).length := by
          simpa using hlen
        rw [if_pos ⟨hflag, hlen2⟩] at he2r
        simp only [List.mem_singleton] at he2r
        rw [he2r] at he2
        rw [calculate_rsi_manual_none _ _ hloss hgain] at he2
        cases he2
      · exact macd_entries_keys tc _ e he3
      · exact bb_entries_keys tc _ e he4
      · exact volume_entries_keys tc _ e he5
      · exact stoch_entries_keys tc _ _ _ e he6

/-- Claim C3, counterexample: with RSI enabled, period 14 and 15 strictly
rising closes, the average loss over the period is 0 yet the indicator map
contains the key "RSI" with the sentinel value 100 — pandas evaluates
`avg_gain/0` to `+inf` and `100 - 100/(1 + inf)` to exactly 100.0, which
is not NaN and is therefore kept. -/
theorem C3_counterexample :
    indicator_flag c3Cfg "rsi" = true ∧
    c3Cfg.rsi_period ≤ c3Chart.ohlc_data.length ∧
    rsi_avg_loss (c3Chart.ohlc_data.map (fun d => d.close)) c3Cfg.rsi_period = 0 ∧
    List.lookup "RSI" (calculate_technical_indicators c3Cfg c3Chart) = some 100 := by
  refine ⟨rfl, by norm_num [c3Chart, c3Cfg], ?_, ?_⟩
  · norm_num [rsi_avg_loss, rsi_losses, rsi_deltas, windowMean, lastN, c3Chart, c3Bar,
      c3Cfg, List.zip]
  · norm_num [calculate_technical_indicators, ma_entries, rsi_entries, macd_entries,
      bb_entries, volume_entries, stoch_entries, indicator_flag, stripNone,
      calculate_rsi_manual, rsi_avg_gain, rsi_avg_loss, rsi_gains, rsi_losses,
      rsi_deltas, windowMean, lastN, c3Cfg, c3Chart, c3Bar, List.zip, List.lookup]

/-- Claim C3, witness: the amended theorem applied to a concrete flat
15-bar series, where average gain and loss are both 0. -/
theorem C3_witness :
    List.lookup "RSI" (calculate_technical_indicators c3Cfg c3FlatChart) = none :=
  C3_rsi_key_amended c3Cfg c3FlatChart rfl (by norm_num [c3FlatChart, c3Cfg])
    (by norm_num [rsi_avg_loss, rsi_losses, rsi_deltas, windowMean, lastN, c3FlatChart,
      c3Bar, c3Cfg, List.zip])
    (by norm_num [rsi_avg_gain, rsi_gains, rsi_deltas, windowMean, lastN, c3FlatChart,
      c3Bar, c3Cfg, List.zip])

/-- Claim C4, counterexample: with both "MACD" (value 0) and "MACD_Signal"
(value 1) present, no MACD vote is cast — the guard
`if macd and macd_signal:` treats the float 0.0 as falsy — whereas the
claim demands one bearish vote `(0, 1)`. -/
theorem C4_counterexample :
    List.lookup "MACD" c4TA = some 0 ∧
    List.lookup "MACD_Signal" c4TA = some 1 ∧
    macd_vote c4TA = (0, 0) ∧ ((0, 0) : ℕ × ℕ) ≠ (0, 1) :=
  ⟨rfl, rfl, rfl, by decide⟩

/-- Claim C4, amended: whenever both "MACD" and "MACD_Signal" are present
with nonzero values, exactly one MACD vote is cast — bullish if
MACD > MACD_Signal, else bearish; if either key is absent or either value
is exactly 0 (Python-falsy), no MACD vote is cast. -/
theorem C4_macd_vote_amended (ta : List (String × ℚ)) :
    (∀ m s, List.lookup "MACD" ta = some m → List.lookup "MACD_Signal" ta = some s →
      m ≠ 0 → s ≠ 0 → macd_vote ta = if s < m then (1, 0) else (0, 1)) ∧
    ((List.lookup "MACD" ta = none ∨ List.lookup "MACD_Signal" ta = none ∨
      List.lookup "MACD" ta = some 0 ∨ List.lookup "MACD_Signal" ta = some 0) →
      macd_vote ta = (0, 0)) := by
  constructor
  · intro m s hm hs hm0 hs0
    simp [macd_vote, hm, hs, optTruthy, hm0, hs0]
  · intro hcase
    rcases hcase with hc | hc | hc | hc
    · simp [macd_vote, hc, optTruthy]
    · rcases hx : List.lookup "MACD" ta with _ | x
      · simp [macd_vote, hx, hc, optTruthy]
      · simp [macd_vote, hx, hc, optTruthy]
    · rcases hy : List.lookup "MACD_Signal" ta with _ | y
      · simp [macd_vote, hc, hy, optTruthy]
      · simp [macd_vote, hc, hy, optTruthy]
    · rcases hx : List.lookup "MACD" ta with _ | x
      · simp [macd_vote, hx, hc, optTruthy]
      · simp [macd_vote, hx, hc, optTruthy]

/-- Claim C4, witness: the amended theorem applied to concrete indicator
maps, one with MACD 2 > signal 1 (one bullish vote) and one empty (no
vote). -/
theorem C4_witness :
    macd_vote [("MACD", (2 : ℚ)), ("MACD_Signal", 1)] = (1, 0) ∧
    macd_vote [] = (0, 0) := by
  constructor
  · have h := (C4_macd_vote_amended [("MACD", (2 : ℚ)), ("MACD_Signal", 1)]).1 2 1
      rfl rfl (by norm_num) (by norm_num)
    rw [h]
    norm_num
  · exact (C4_macd_vote_amended []).2 (Or.inl rfl)

/-- Claim C5: `predict_price_movement` returns direction "SIDEWAYS" iff
the bullish vote count equals the bearish vote count, in which case the
confidence is exactly 0.5; for a decided direction the confidence is
`min(0.9, 0.5 + 0.15·|bullish − bearish|)`. -/
theorem C5_sideways_iff_vote_tie (mc : ModelConfig) (chart : ChartData)
    (ta : List (String × ℚ)) :
    ((predict_price_movement mc chart ta).direction = "SIDEWAYS" ↔
      (signal_counts chart ta).1 = (signal_counts chart ta).2) ∧
    (predict_price_movement mc chart ta).confidence =
      (if (signal_counts chart ta).1 = (signal_counts chart ta).2 then 0.5
       else min 0.9 (0.5 + 0.15 *
         |((signal_counts chart ta).1 : ℚ) - ((signal_counts chart ta).2 : ℚ)|)) := by
  rcases Nat.lt_trichotomy (signal_counts chart ta).1 (signal_counts chart ta).2 with hlt | heq | hgt
  · have h1 : ¬ ((signal_counts chart ta).2 < (signal_counts chart ta).1) := by omega
    have hne : ¬ ((signal_counts chart ta).1 = (signal_counts chart ta).2) := by omega
    have hcast : (((signal_counts chart ta).2 - (signal_counts chart ta).1 : ℕ) : ℚ) =
        ((signal_counts chart ta).2 : ℚ) - ((signal_counts chart ta).1 : ℚ) :=
      Nat.cast_sub (le_of_lt hlt)
    have habs : |((signal_counts chart ta).1 : ℚ) - ((signal_counts chart ta).2 : ℚ)| =
        ((signal_counts chart ta).2 : ℚ) - ((signal_counts chart ta).1 : ℚ) := by
      rw [abs_sub_comm]
      refine abs_of_nonneg (sub_nonneg.mpr ?_)
      exact_mod_cast le_of_lt hlt
    constructor
    · simp [predict_price_movement, h1, hlt, hne]
    · simp [predict_price_movement, h1, hlt, hne, hcast, habs]
      ring_nf
  · have h1 : ¬ ((signal_counts chart ta).2 < (signal_counts chart ta).1) := by omega
    have h2 : ¬ ((signal_counts chart ta).1 < (signal_counts chart ta).2) := by omega
    constructor
    · simp [predict_price_movement, h1, h2, heq]
    · simp [predict_price_movement, h1, h2, heq]
  · have hne : ¬ ((signal_counts chart ta).1 = (signal_counts chart ta).2) := by omega
    have hcast : (((signal_counts chart ta).1 - (signal_counts chart ta).2 : ℕ) : ℚ) =
        ((signal_counts chart ta).1 : ℚ) - ((signal_counts chart ta).2 : ℚ) :=
      Nat.cast_sub (le_of_lt hgt)
    have habs : |((signal_counts chart ta).1 : ℚ) - ((signal_counts chart ta).2 : ℚ)| =
        ((signal_counts chart ta).1 : ℚ) - ((signal_counts chart ta).2 : ℚ) := by
      refine abs_of_nonneg (sub_nonneg.mpr ?_)
      exact_mod_cast le_of_lt hgt
    constructor
    · simp [predict_price_movement, hgt, hne]
    · simp [predict_price_movement, hgt, hne, hcast, habs]
      ring_nf

/-- Claim C6: `generate_trading_signals` returns action "HOLD" whenever
the prediction confidence is below 0.6, regardless of direction, and
whenever the returned entry price is absent the returned risk/reward
ratio is exactly 0. -/
theorem C6_hold_and_no_ratio (tc : TradingConfig) (pred : Prediction)
    (ta : List (String × ℚ)) :
    (pred.confidence < 0.6 → (generate_trading_signals tc pred ta).action = "HOLD") ∧
    ((generate_trading_signals tc pred ta).entry_price = none →
      (generate_trading_signals tc pred ta).risk_reward_ratio = 0) := by
  obtain ⟨hact, hentry, hrr⟩ := generate_filters_preserve tc pred ta
  constructor
  · intro h
    rw [hact]
    exact generate_base_hold tc pred h
  · intro h
    rw [hentry] at h
    rw [hrr]
    exact generate_base_ratio tc pred h

/-- Claim C6, witness: the theorem applied to a concrete prediction with
confidence 0.5, giving a HOLD signal with no entry price and ratio 0. -/
theorem C6_witness :
    c6Pred.confidence < 0.6 ∧
    (generate_trading_signals c6TC c6Pred []).action = "HOLD" ∧
    (generate_trading_signals c6TC c6Pred []).entry_price = none ∧
    (generate_trading_signals c6TC c6Pred []).risk_reward_ratio = 0 := by
  have hconf : c6Pred.confidence < 0.6 := by norm_num [c6Pred]
  have hentry : (generate_trading_signals c6TC c6Pred []).entry_price = none := by
    obtain ⟨-, hentry, -⟩ := generate_filters_preserve c6TC c6Pred []
    rw [hentry]
    simp [generate_base_signal, hconf]
  exact ⟨hconf, (C6_hold_and_no_ratio c6TC c6Pred []).1 hconf,
    hentry, (C6_hold_and_no_ratio c6TC c6Pred []).2 hentry⟩

/-- Claim C7: the trend-confirmation and volume-confirmation filters leave
action, entry price, stop loss, take profit and risk/reward ratio
unchanged, never increase strength in the order Strong > Medium > Weak,
and only append text to the reasoning. -/
theorem C7_filters_frame_effect (s : TradingSignal) (ta : List (String × ℚ)) :
    ((apply_trend_filter s ta).action = s.action ∧
     (apply_trend_filter s ta).entry_price = s.entry_price ∧
     (apply_trend_filter s ta).stop_loss = s.stop_loss ∧
     (apply_trend_filter s ta).take_profit = s.take_profit ∧
     (apply_trend_filter s ta).risk_reward_ratio = s.risk_reward_ratio ∧
     strengthRank (apply_trend_filter s ta).strength ≤ strengthRank s.strength ∧
     ∃ t, (apply_trend_filter s ta).reasoning = s.reasoning ++ t) ∧
    ((apply_volume_filter s ta).action = s.action ∧
     (apply_volume_filter s ta).entry_price = s.entry_price ∧
     (apply_volume_filter s ta).stop_loss = s.stop_loss ∧
     (apply_volume_filter s ta).take_profit = s.take_profit ∧
     (apply_volume_filter s ta).risk_reward_ratio = s.risk_reward_ratio ∧
     strengthRank (apply_volume_filter s ta).strength ≤ strengthRank s.strength ∧
     ∃ t, (apply_volume_filter s ta).reasoning = s.reasoning ++ t) :=
  ⟨apply_trend_filter_fields s ta, apply_volume_filter_fields s ta⟩

/-- Claim C8: for every series with fewer than 20 bars (including the
empty series), `detect_patterns` returns the empty pattern list. -/
theorem C8_insufficient_bars_no_patterns (chart : ChartData)
    (h : chart.ohlc_data.length < 20) : detect_patterns chart = [] := by
  simp [detect_patterns, h]

/-- Claim C8, witness: the theorem applied to the empty series. -/
theorem C8_witness :
    c8Chart.ohlc_data.length < 20 ∧ detect_patterns c8Chart = [] :=
  ⟨by decide, C8_insufficient_bars_no_patterns c8Chart (by decide)⟩

/-- Claim C9: for every series shorter than 30 bars, `backtest_prediction`
returns the all-zero empty report whose `backtest_period` is "No data". -/
theorem C9_short_series_empty_report (pred : Prediction) (data : List OHLCData)
    (h : data.length < 30) :
    backtest_prediction pred data = get_empty_backtest_results ∧
    (backtest_prediction pred data).backtest_period = "No data" := by
  have hmain : backtest_prediction pred data = get_empty_backtest_results := by
    unfold backtest_prediction run_backtest_simulation
    by_cases h10 : data.length < 10
    · simp [h10]
    · have hlen : (data.map (fun d => d.close)).length < 30 := by
        simpa using h
      simp [h10, hlen, h]
  exact ⟨hmain, by rw [hmain]; rfl⟩

/-- Claim C9, witness: the theorem applied to a concrete 20-bar series. -/
theorem C9_witness :
    c9Data.length < 30 ∧
    backtest_prediction c9Pred c9Data = get_empty_backtest_results :=
  ⟨by simp [c9Data], (C9_short_series_empty_report c9Pred c9Data (by simp [c9Data])).1⟩

/-- Claim C10: when the price-levels map has no "current_price" key,
`predict_price_movement` substitutes the constant 150.0: the returned
target price is 157.5 for UP, 142.5 for DOWN and 150.0 for SIDEWAYS, and
the vote counters use 150.0 as the current price in the moving-average
comparison. -/
theorem C10_missing_current_price_defaults (mc : ModelConfig) (chart : ChartData)
    (ta : List (String × ℚ))
    (h : List.lookup "current_price" chart.price_levels = none) :
    current_price_of chart = 150 ∧
    signal_counts chart ta =
      addVotes (rsi_vote ta) (addVotes (macd_vote ta) (ma_vote 150 ta)) ∧
    ((predict_price_movement mc chart ta).direction = "UP" →
      (predict_price_movement mc chart ta).target_price = some 157.5) ∧
    ((predict_price_movement mc chart ta).direction = "DOWN" →
      (predict_price_movement mc chart ta).target_price = some 142.5) ∧
    ((predict_price_movement mc chart ta).direction = "SIDEWAYS" →
      (predict_price_movement mc chart ta).target_price = some 150) := by
  have hcp : current_price_of chart = 150 := by simp [current_price_of, h]
  refine ⟨hcp, by simp [signal_counts, hcp], ?_, ?_, ?_⟩ <;>
    rcases Nat.lt_trichotomy (signal_counts chart ta).1 (signal_counts chart ta).2
      with hlt | heq | hgt <;>
    intro hdir
  · exfalso
    have h1 : ¬ ((signal_counts chart ta).2 < (signal_counts chart ta).1) := by omega
    simp [predict_price_movement, h1, hlt, hcp] at hdir
  · exfalso
    have h1 : ¬ ((signal_counts chart ta).2 < (signal_counts chart ta).1) := by omega
    have h2 : ¬ ((signal_counts chart ta).1 < (signal_counts chart ta).2) := by omega
    simp [predict_price_movement, h1, h2, hcp] at hdir
  · simp [predict_price_movement, hgt, hcp]
    norm_num [pyround, roundHalfEven]
  · have h1 : ¬ ((signal_counts chart ta).2 < (signal_counts chart ta).1) := by omega
    simp [predict_price_movement, h1, hlt, hcp]
    norm_num [pyround, roundHalfEven]
  · exfalso
    have h1 : ¬ ((signal_counts chart ta).2 < (signal_counts chart ta).1) := by omega
    have h2 : ¬ ((signal_counts chart ta).1 < (signal_counts chart ta).2) := by omega
    simp [predict_price_movement, h1, h2, hcp] at hdir
  · exfalso
    simp [predict_price_movement, hgt, hcp] at hdir
  · exfalso
    have h1 : ¬ ((signal_counts chart ta).2 < (signal_counts chart ta).1) := by omega
    simp [predict_price_movement, h1, hlt, hcp] at hdir
  · have h1 : ¬ ((signal_counts chart ta).2 < (signal_counts chart ta).1) := by omega
    have h2 : ¬ ((signal_counts chart ta).1 < (signal_counts chart ta).2) := by omega
    simp [predict_price_movement, h1, h2, hcp]
    norm_num [pyround, roundHalfEven]
  · exfalso
    simp [predict_price_movement, hgt, hcp] at hdir

/-- Claim C10, witness: the theorem applied to a concrete series without
price levels and an empty indicator map (tied votes, SIDEWAYS, target
150.0). -/
theorem C10_witness :
    List.lookup "current_price" c10Chart.price_levels = none ∧
    (predict_price_movement ⟨0.7, 24⟩ c10Chart []).target_price = some 150 :=
  ⟨rfl, (C10_missing_current_price_defaults ⟨0.7, 24⟩ c10Chart [] rfl).2.2.2.2
    (by simp [predict_price_movement, signal_counts, rsi_vote, macd_vote, ma_vote,
      optTruthy, current_price_of, addVotes])⟩

